import Mathlib

/-!
Verification of the AI Arena frontend service clients and observer hooks
against the real-time game orchestration spec.

The definitions below are shallow embeddings of the TypeScript sources:

* `matchService.ts` (src/unnamed/part_005): `fetchEventsSince` over the
  `match_events` table;
* `mrwhiteApi.ts` (src/unnamed/part_004): `fetchApi`, `createWebSocket`;
* `tictactoeApi.ts` (src/unnamed/part_006): `handleResponse`, URL layout;
* `codenamesApi.ts`: `deleteGame`, `healthCheck`, `getWebSocketUrl`;
* `useCodenames.ts`, `useMrWhite` / `useTicTacToe` (src/unnamed/part_008):
  the WebSocket `onmessage` handlers and the socket lifecycle.

JavaScript-level behaviour (string `replace` of the first occurrence,
`||` falsiness on strings, `try`/`catch` around `JSON.parse`) is embedded
explicitly; fallible operations return `Option`/`Except`.
-/

namespace Arena

/-! ### JavaScript string primitives -/

/-- Replacement of the first occurrence of `pat` by `rep` in a character
list, exactly as the string-pattern overload of JavaScript
`String.prototype.replace` behaves (only the first match is rewritten;
an empty pattern matches at the start). -/
def listReplaceFirst (pat rep : List Char) : List Char → List Char
  | [] => if pat.isPrefixOf ([] : List Char) then rep else []
  | c :: rest =>
    if pat.isPrefixOf (c :: rest) then rep ++ (c :: rest).drop pat.length
    else c :: listReplaceFirst pat rep rest

/-- JavaScript `s.replace(pat, rep)` with a string pattern. -/
def jsReplace (s pat rep : String) : String :=
  ⟨listReplaceFirst pat.data rep.data s.data⟩

/-- JavaScript `x || dflt` for a string-valued `x` that may be absent
(`undefined`) or present: the empty string is falsy and falls through. -/
def jsOrStr : Option String → String → String
  | some v, dflt => if v = "" then dflt else v
  | none, dflt => dflt

/-! ### Match events: the supabase replay query (`matchService.ts`)

`MatchEvent` mirrors the row type of the `match_events` table
(`lib/types/index.ts`); the opaque JSON `payload` column is kept as an
uninterpreted optional string. -/

structure MatchEvent where
  id : String
  match_id : String
  seq : Int
  type : String
  payload : Option String
  created_at : String
deriving DecidableEq, Repr

/-- Ordering used by the query clause `.order('seq', { ascending: true })`. -/
def bySeq (a b : MatchEvent) : Prop := a.seq ≤ b.seq

instance : DecidableRel bySeq := fun a b => inferInstanceAs (Decidable (a.seq ≤ b.seq))

instance : IsTotal MatchEvent bySeq := ⟨fun a b => Int.le_total a.seq b.seq⟩

instance : IsTrans MatchEvent bySeq := ⟨fun _ _ _ hab hbc => le_trans hab hbc⟩

/-- Row filter of the query: `.eq('match_id', matchId).gt('seq', lastSeqExclusive)`. -/
def matchesQuery (matchId : String) (lastSeqExclusive : Int) (e : MatchEvent) : Bool :=
  e.match_id == matchId && decide (lastSeqExclusive < e.seq)

/-- Shallow embedding of `fetchEventsSince(matchId, lastSeqExclusive)`:
the supabase query selects the rows of `match_events` whose `match_id`
equals `matchId` and whose `seq` is strictly greater than
`lastSeqExclusive`, ordered by `seq` ascending; `data ?? []` yields the
empty list when nothing matches. -/
def fetchEventsSince (db : List MatchEvent) (matchId : String)
    (lastSeqExclusive : Int) : List MatchEvent :=
  List.insertionSort bySeq (db.filter (matchesQuery matchId lastSeqExclusive))

end Arena

/-- C1: for every match id, exclusive lower bound and stored event set,
`fetchEventsSince` returns exactly the stored events of that match with
`seq` strictly greater than the bound, sorted in ascending `seq` order,
and the empty list when no such event exists. -/
theorem Arena.fetchEventsSince_replayFrom (db : List Arena.MatchEvent)
    (matchId : String) (k : Int) :
    List.Perm (Arena.fetchEventsSince db matchId k)
      (db.filter (Arena.matchesQuery matchId k)) ∧
    List.Sorted Arena.bySeq (Arena.fetchEventsSince db matchId k) ∧
    (∀ e, e ∈ Arena.fetchEventsSince db matchId k ↔
      e ∈ db ∧ e.match_id = matchId ∧ k < e.seq) ∧
    ((∀ e ∈ db, ¬(e.match_id = matchId ∧ k < e.seq)) →
      Arena.fetchEventsSince db matchId k = []) := by
  refine ⟨List.perm_insertionSort _ _, List.sorted_insertionSort _ _, ?_, ?_⟩
  · intro e
    simp [Arena.fetchEventsSince, Arena.matchesQuery, List.mem_filter, and_assoc]
  · intro h
    have hfil : db.filter (Arena.matchesQuery matchId k) = [] := by
      rw [List.filter_eq_nil_iff]
      intro e he
      have := h e he
      simp only [Arena.matchesQuery, Bool.and_eq_true, beq_iff_eq, decide_eq_true_eq]
      tauto
    simp [Arena.fetchEventsSince, hfil]

namespace Arena

/-- Concrete stored event used to evaluate the replay query. -/
def sampleEvent1 : MatchEvent :=
  { id := "e1", match_id := "m1", seq := 1, type := "move", payload := none,
    created_at := "2024-01-01" }

/-- Second concrete stored event used to evaluate the replay query. -/
def sampleEvent2 : MatchEvent :=
  { id := "e2", match_id := "m1", seq := 2, type := "move", payload := none,
    created_at := "2024-01-01" }

end Arena

/-- Witness for C1: on a concrete store holding two events of match `m1`,
a replay for the unknown match `m2` hits the empty-result clause. -/
theorem Arena.fetchEventsSince_replayFrom_witness :
    Arena.fetchEventsSince [Arena.sampleEvent1, Arena.sampleEvent2] "m2" 0 = [] :=
  (Arena.fetchEventsSince_replayFrom [Arena.sampleEvent1, Arena.sampleEvent2]
    "m2" 0).2.2.2 (by decide)

namespace Arena

/-! ### Gateway URL layout of the three game API clients (C3)

Each client reads `process.env["NEXT_PUBLIC_API_URL"]` with the JavaScript
`||` fallback `"http://localhost:8080"`; `env = none` models an unset
variable. -/

/-- Gateway base address: `process.env["NEXT_PUBLIC_API_URL"] || "http://localhost:8080"`. -/
def apiUrl (env : Option String) : String := jsOrStr env "http://localhost:8080"

/-- WebSocket base shared by the clients:
`API_URL.replace("http://", "ws://").replace("https://", "wss://")`. -/
def wsBaseUrl (env : Option String) : String :=
  jsReplace (jsReplace (apiUrl env) "http://" "ws://") "https://" "wss://"

/-- Codenames REST base: `` `${API_URL}/api/codenames` ``. -/
def codenamesApiBaseUrl (env : Option String) : String :=
  apiUrl env ++ "/api/codenames"

/-- Mr. White REST base: `` `${apiUrl}/api/mr-white` ``. -/
def mrWhiteBaseUrl (env : Option String) : String :=
  apiUrl env ++ "/api/mr-white"

/-- Tic-tac-toe REST base: `` `${API_URL}/api/tic-tac-toe` ``. -/
def ticTacToeApiBaseUrl (env : Option String) : String :=
  apiUrl env ++ "/api/tic-tac-toe"

/-- The REST endpoints of `CodenamesApi`. -/
inductive CodenamesEndpoint where
  | getModels
  | createGame
  | listGames
  | getGame (gameId : String)
  | deleteGame (gameId : String)
  | healthCheck
deriving DecidableEq

/-- Request URL fetched by each `CodenamesApi` method; `healthCheck`
fetches `` `${apiUrl}/health` `` directly on the gateway root. -/
def codenamesRequestUrl (env : Option String) : CodenamesEndpoint → String
  | .getModels => codenamesApiBaseUrl env ++ "/models"
  | .createGame => codenamesApiBaseUrl env ++ "/games"
  | .listGames => codenamesApiBaseUrl env ++ "/games"
  | .getGame g => codenamesApiBaseUrl env ++ "/games/" ++ g
  | .deleteGame g => codenamesApiBaseUrl env ++ "/games/" ++ g
  | .healthCheck => apiUrl env ++ "/health"

/-- Path of each non-health codenames endpoint below the service base. -/
def codenamesEndpointPath : CodenamesEndpoint → String
  | .getModels => "/models"
  | .createGame => "/games"
  | .listGames => "/games"
  | .getGame g => "/games/" ++ g
  | .deleteGame g => "/games/" ++ g
  | .healthCheck => "/health"

/-- The REST endpoints reached through `MrWhiteApiService.fetchApi`. -/
inductive MrWhiteEndpoint where
  | healthCheck
  | createGame
  | getGame (gameId : String)
  | listGames
deriving DecidableEq

/-- Endpoint string passed to `fetchApi` by each `MrWhiteApiService` method. -/
def mrWhiteEndpointPath : MrWhiteEndpoint → String
  | .healthCheck => "/health"
  | .createGame => "/games"
  | .getGame g => "/games/" ++ g
  | .listGames => "/games"

/-- Request URL of `fetchApi`: `` `${this.baseUrl}${endpoint}` ``. -/
def mrWhiteRequestUrl (env : Option String) (ep : MrWhiteEndpoint) : String :=
  mrWhiteBaseUrl env ++ mrWhiteEndpointPath ep

/-- The REST endpoints of `TicTacToeApi`. -/
inductive TicTacToeEndpoint where
  | createGame
  | getGame (gameId : String)
  | makeMove (gameId : String)
  | resetGame (gameId : String)
  | deleteGame (gameId : String)
  | autoPlay (gameId : String)
deriving DecidableEq

/-- Request URL fetched by each `TicTacToeApi` method. -/
def ticTacToeRequestUrl (env : Option String) : TicTacToeEndpoint → String
  | .createGame => ticTacToeApiBaseUrl env ++ "/games"
  | .getGame g => ticTacToeApiBaseUrl env ++ "/games/" ++ g
  | .makeMove g => ticTacToeApiBaseUrl env ++ "/games/" ++ g ++ "/move"
  | .resetGame g => ticTacToeApiBaseUrl env ++ "/games/" ++ g ++ "/reset"
  | .deleteGame g => ticTacToeApiBaseUrl env ++ "/games/" ++ g
  | .autoPlay g => ticTacToeApiBaseUrl env ++ "/games/" ++ g ++ "/auto"

/-- Path of each tic-tac-toe endpoint below the service base. -/
def ticTacToeEndpointPath : TicTacToeEndpoint → String
  | .createGame => "/games"
  | .getGame g => "/games/" ++ g
  | .makeMove g => "/games/" ++ g ++ "/move"
  | .resetGame g => "/games/" ++ g ++ "/reset"
  | .deleteGame g => "/games/" ++ g
  | .autoPlay g => "/games/" ++ g ++ "/auto"

/-- URL opened by `MrWhiteApiService.createWebSocket`:
`` `${this.wsUrl}/ws/mr-white/games/${gameId}/ws` ``. -/
def mrWhiteWebSocketUrl (env : Option String) (gameId : String) : String :=
  wsBaseUrl env ++ "/ws/mr-white/games/" ++ gameId ++ "/ws"

/-- The URL of `TicTacToeApi.getWebSocketUrl`:
`` `${WS_BASE_URL}/ws/tic-tac-toe/games/${gameId}` ``. -/
def ticTacToeGetWebSocketUrl (env : Option String) (gameId : String) : String :=
  wsBaseUrl env ++ "/ws/tic-tac-toe/games/" ++ gameId

/-- The URL of `CodenamesApi.getWebSocketUrl`:
`` `${wsBaseUrl}/ws/codenames/games/${gameId}` ``. -/
def codenamesGetWebSocketUrl (env : Option String) (gameId : String) : String :=
  wsBaseUrl env ++ "/ws/codenames/games/" ++ gameId

end Arena

/-- Counterexample to C3 as stated: with the default gateway URL,
`CodenamesApi.healthCheck` fetches `http://localhost:8080/health`, which
does not carry the `/api/codenames` path prefix — so not every REST
request of the three game clients is prefixed by `/api/{svc}`. -/
theorem Arena.codenames_healthCheck_unprefixed :
    Arena.codenamesRequestUrl none Arena.CodenamesEndpoint.healthCheck
      = "http://localhost:8080/health" ∧
    (Arena.codenamesApiBaseUrl none).data.isPrefixOf
      (Arena.codenamesRequestUrl none Arena.CodenamesEndpoint.healthCheck).data
      = false := by
  constructor
  · rfl
  · decide

/-- C3 amended: every REST request of the three game clients targets the
single gateway base URL; all endpoints carry the `/api/{svc}` prefix
except `CodenamesApi.healthCheck`, which fetches `{gateway}/health`
directly. Every WebSocket URL is the gateway base with the scheme
rewritten `http→ws` / `https→wss` plus the `/ws/{svc}` prefix, and
`CodenamesApi.getWebSocketUrl(gameId)` is the ws base plus
`"/ws/codenames/games/"` plus the game id. -/
theorem Arena.gateway_url_layout (env : Option String) (g : String) :
    (∀ ep : Arena.CodenamesEndpoint, ep ≠ .healthCheck →
      Arena.codenamesRequestUrl env ep
        = Arena.codenamesApiBaseUrl env ++ Arena.codenamesEndpointPath ep) ∧
    Arena.codenamesRequestUrl env .healthCheck = Arena.apiUrl env ++ "/health" ∧
    (∀ ep : Arena.MrWhiteEndpoint, Arena.mrWhiteRequestUrl env ep
        = Arena.mrWhiteBaseUrl env ++ Arena.mrWhiteEndpointPath ep) ∧
    (∀ ep : Arena.TicTacToeEndpoint, Arena.ticTacToeRequestUrl env ep
        = Arena.ticTacToeApiBaseUrl env ++ Arena.ticTacToeEndpointPath ep) ∧
    Arena.mrWhiteWebSocketUrl env g
      = Arena.wsBaseUrl env ++ ("/ws/mr-white/games/" ++ g ++ "/ws") ∧
    Arena.ticTacToeGetWebSocketUrl env g
      = Arena.wsBaseUrl env ++ ("/ws/tic-tac-toe/games/" ++ g) ∧
    Arena.codenamesGetWebSocketUrl env g
      = Arena.wsBaseUrl env ++ ("/ws/codenames/games/" ++ g) ∧
    Arena.wsBaseUrl (some "http://localhost:8080") = "ws://localhost:8080" ∧
    Arena.wsBaseUrl (some "https://arena.example.com") = "wss://arena.example.com" ∧
    Arena.wsBaseUrl none = "ws://localhost:8080" := by
  refine ⟨?_, rfl, ?_, ?_, ?_, ?_, ?_, by decide, by decide, by decide⟩
  · intro ep hep
    cases ep with
    | getModels => rfl
    | createGame => rfl
    | listGames => rfl
    | getGame g2 => exact String.append_assoc _ _ _
    | deleteGame g2 => exact String.append_assoc _ _ _
    | healthCheck => exact absurd rfl hep
  · intro ep
    cases ep <;> rfl
  · intro ep
    cases ep <;> simp [Arena.ticTacToeRequestUrl, Arena.ticTacToeEndpointPath,
      String.append_assoc]
  · simp [Arena.mrWhiteWebSocketUrl, String.append_assoc]
  · exact String.append_assoc _ _ _
  · exact String.append_assoc _ _ _

/-- Witness for C3 (amended): the delete endpoint of the codenames client
at the default gateway, with its hypothesis discharged concretely. -/
theorem Arena.gateway_url_layout_witness :
    Arena.codenamesRequestUrl none (Arena.CodenamesEndpoint.deleteGame "g1")
      = Arena.codenamesApiBaseUrl none
        ++ Arena.codenamesEndpointPath (Arena.CodenamesEndpoint.deleteGame "g1") :=
  (Arena.gateway_url_layout none "g1").1
    (Arena.CodenamesEndpoint.deleteGame "g1") (by decide)

namespace Arena

/-! ### HTTP response model and client error mapping (C5, C6, C8)

A `fetch` call either yields a response or throws a network error.  The
only fields of a parsed error body the clients read are `detail` and
`message`; `body = .error m` models a response whose `json()` promise
rejects with message `m` (body absent or not valid JSON). -/

/-- Fields of the parsed JSON error body read by the clients. -/
structure ErrorBody where
  detail : Option String
  message : Option String
deriving DecidableEq, Repr

/-- The parts of a `fetch` `Response` the clients consume. -/
structure HttpResponse where
  ok : Bool
  status : Nat
  statusText : String
  body : Except String ErrorBody
deriving Repr

/-- Outcome of a `fetch` call: a response, or a thrown network error. -/
inductive FetchOutcome where
  | success (r : HttpResponse)
  | networkError (msg : String)
deriving Repr

/-- The `detail` field of the parsed body, when the body parsed at all. -/
def bodyDetail (r : HttpResponse) : Option String :=
  match r.body with
  | .ok b => b.detail
  | .error _ => none

/-- Data carried by the `MrWhiteApiError` class: message, optional
HTTP status code and the raw error body. -/
structure MrWhiteApiError where
  message : String
  statusCode : Option Nat
  details : Option ErrorBody
deriving DecidableEq, Repr

/-- Shallow embedding of `MrWhiteApiService.fetchApi`: a non-ok response
throws `MrWhiteApiError(errorData.detail || "HTTP {status}: {statusText}",
status, errorData)` where `errorData` is the parsed body or `{}`; every
other thrown value is wrapped into a `MrWhiteApiError` by the outer
`catch`, so the call never rejects with any other error type. -/
def mrWhiteFetchApi (o : FetchOutcome) : Except MrWhiteApiError ErrorBody :=
  match o with
  | .networkError m => .error ⟨m, none, none⟩
  | .success r =>
    if r.ok then
      match r.body with
      | .ok b => .ok b
      | .error m => .error ⟨m, none, none⟩
    else
      let errorData : ErrorBody :=
        match r.body with
        | .ok b => b
        | .error _ => ⟨none, none⟩
      .error ⟨jsOrStr errorData.detail
          ("HTTP " ++ toString r.status ++ ": " ++ r.statusText),
        some r.status, some errorData⟩

/-- Data carried by the `TicTacToeApiError` class. -/
structure TicTacToeApiError where
  message : String
  status : Option Nat
  data : Option ErrorBody
deriving DecidableEq, Repr

/-- Rejection of the tic-tac-toe `handleResponse`: the typed client error,
or a raw JavaScript error (only possible on the ok path, whose
`response.json()` rejection is not caught). -/
inductive TicTacToeReject where
  | apiError (e : TicTacToeApiError)
  | jsError (msg : String)
deriving DecidableEq, Repr

/-- Shallow embedding of the tic-tac-toe `handleResponse`: a non-ok
response throws `TicTacToeApiError(errorData.detail || errorData.message
|| "HTTP {status}", status, errorData)`, where an unparseable body is
replaced by `{ detail: response.statusText }`. -/
def handleResponse (r : HttpResponse) : Except TicTacToeReject ErrorBody :=
  if r.ok then
    match r.body with
    | .ok b => .ok b
    | .error m => .error (.jsError m)
  else
    let errorData : ErrorBody :=
      match r.body with
      | .ok b => b
      | .error _ => ⟨some r.statusText, none⟩
    .error (.apiError
      ⟨jsOrStr errorData.detail
          (jsOrStr errorData.message ("HTTP " ++ toString r.status)),
        some r.status, some errorData⟩)

/-- Data carried by the `CodenamesApiError` class. -/
structure CodenamesApiError where
  message : String
  statusCode : Option Nat
deriving DecidableEq, Repr

/-- Shallow embedding of `CodenamesApi.deleteGame`: resolves with no value
on an ok response; a 404 throws `CodenamesApiError("Game not found", 404)`,
any other non-ok status throws `CodenamesApiError("Failed to delete game",
status)`, and a thrown fetch error is wrapped into
`CodenamesApiError("Network error: ...")` — never any other error type. -/
def codenamesDeleteGame (o : FetchOutcome) : Except CodenamesApiError Unit :=
  match o with
  | .networkError m => .error ⟨"Network error: " ++ m, none⟩
  | .success r =>
    if r.ok then .ok ()
    else if r.status = 404 then .error ⟨"Game not found", some 404⟩
    else .error ⟨"Failed to delete game", some r.status⟩

/-- Shallow embedding of `CodenamesApi.healthCheck`: returns
`response.ok`, and `false` when the fetch throws — it never rejects,
which the total return type `Bool` makes explicit. -/
def codenamesHealthCheck (o : FetchOutcome) : Bool :=
  match o with
  | .success r => r.ok
  | .networkError _ => false

/-- Concrete non-ok response whose parsed body has an empty `detail`. -/
def emptyDetailResponse : HttpResponse :=
  { ok := false, status := 500, statusText := "Internal Server Error",
    body := .ok ⟨some "", none⟩ }

end Arena

/-- Counterexample to C5 as stated: on a non-ok response whose body has
the present-but-empty `detail` field `""`, `fetchApi` rejects with the
HTTP-status fallback message rather than with the `detail` value, because
the JavaScript `||` treats the empty string as falsy. -/
theorem Arena.mrWhiteFetchApi_emptyDetail :
    Arena.bodyDetail Arena.emptyDetailResponse = some "" ∧
    Arena.mrWhiteFetchApi (.success Arena.emptyDetailResponse)
      = .error ⟨"HTTP 500: Internal Server Error", some 500,
          some ⟨some "", none⟩⟩ ∧
    ("HTTP 500: Internal Server Error" : String) ≠ "" := by
  refine ⟨rfl, rfl, by decide⟩

/-- C5 amended: for every non-ok response, `fetchApi` and `handleResponse`
reject with their typed client error storing the response's HTTP status;
the message equals the body's `detail` field when that field is present
and non-empty, and falls back to an HTTP-status message when the body is
absent or unparseable (the tic-tac-toe fallback being the status text,
then `HTTP {status}` if the status text is empty). -/
theorem Arena.client_error_mapping (r : Arena.HttpResponse)
    (hok : r.ok = false) :
    (∃ e : Arena.MrWhiteApiError,
      Arena.mrWhiteFetchApi (.success r) = .error e ∧
      e.statusCode = some r.status ∧
      (∀ d, Arena.bodyDetail r = some d → d ≠ "" → e.message = d) ∧
      (∀ m, r.body = .error m →
        e.message = "HTTP " ++ toString r.status ++ ": " ++ r.statusText)) ∧
    (∃ e : Arena.TicTacToeApiError,
      Arena.handleResponse r = .error (.apiError e) ∧
      e.status = some r.status ∧
      (∀ d, Arena.bodyDetail r = some d → d ≠ "" → e.message = d) ∧
      (∀ m, r.body = .error m →
        e.message = Arena.jsOrStr (some r.statusText)
          ("HTTP " ++ toString r.status))) := by
  cases hb : r.body with
  | ok b =>
    constructor
    · refine ⟨⟨Arena.jsOrStr b.detail
          ("HTTP " ++ toString r.status ++ ": " ++ r.statusText),
          some r.status, some b⟩, ?_, rfl, ?_, ?_⟩
      · simp [Arena.mrWhiteFetchApi, hok, hb]
      · intro d hd hne
        have hd2 : b.detail = some d := by simpa [Arena.bodyDetail, hb] using hd
        simp [Arena.jsOrStr, hd2, hne]
      · intro m hm
        simp [hb] at hm
    · refine ⟨⟨Arena.jsOrStr b.detail
          (Arena.jsOrStr b.message ("HTTP " ++ toString r.status)),
          some r.status, some b⟩, ?_, rfl, ?_, ?_⟩
      · simp [Arena.handleResponse, hok, hb]
      · intro d hd hne
        have hd2 : b.detail = some d := by simpa [Arena.bodyDetail, hb] using hd
        simp [Arena.jsOrStr, hd2, hne]
      · intro m hm
        simp [hb] at hm
  | error m0 =>
    constructor
    · refine ⟨⟨"HTTP " ++ toString r.status ++ ": " ++ r.statusText,
          some r.status, some ⟨none, none⟩⟩, ?_, rfl, ?_, ?_⟩
      · simp [Arena.mrWhiteFetchApi, hok, hb, Arena.jsOrStr]
      · intro d hd
        simp [Arena.bodyDetail, hb] at hd
      · intro m hm
        rfl
    · refine ⟨⟨Arena.jsOrStr (some r.statusText)
          ("HTTP " ++ toString r.status),
          some r.status, some ⟨some r.statusText, none⟩⟩, ?_, rfl, ?_, ?_⟩
      · simp [Arena.handleResponse, hok, hb, Arena.jsOrStr]
      · intro d hd
        simp [Arena.bodyDetail, hb] at hd
      · intro m hm
        rfl

/-- Witness for C5 (amended): a concrete 404 with unparseable body maps to
the typed errors with the HTTP-status fallback messages. -/
theorem Arena.client_error_mapping_witness :
    ∃ e : Arena.MrWhiteApiError,
      Arena.mrWhiteFetchApi
        (.success ⟨false, 404, "Not Found", .error "SyntaxError"⟩)
        = .error e ∧
      e.statusCode = some 404 ∧
      (∀ d, Arena.bodyDetail ⟨false, 404, "Not Found", .error "SyntaxError"⟩
        = some d → d ≠ "" → e.message = d) ∧
      (∀ m, (Except.error m : Except String Arena.ErrorBody)
          = .error "SyntaxError" → e.message = "HTTP " ++ toString 404
            ++ ": " ++ "Not Found") := by
  obtain ⟨e, he⟩ :=
    (Arena.client_error_mapping ⟨false, 404, "Not Found", .error "SyntaxError"⟩
      rfl).1
  exact ⟨e, he.1, he.2.1, he.2.2.1, fun m _ => he.2.2.2 "SyntaxError" rfl⟩

/-- C6: `CodenamesApi.deleteGame` resolves with no value exactly on an ok
response; a 404 rejects with `CodenamesApiError` of statusCode 404 and
message "Game not found"; every other failure — any other non-ok status or
a thrown fetch error — also rejects with a `CodenamesApiError` (the return
type `Except CodenamesApiError Unit` rules out any other error type). -/
theorem Arena.codenamesDeleteGame_errors (o : Arena.FetchOutcome) :
    (Arena.codenamesDeleteGame o = .ok () ↔
      ∃ r, o = .success r ∧ r.ok = true) ∧
    (∀ r, o = .success r → r.ok = false → r.status = 404 →
      Arena.codenamesDeleteGame o = .error ⟨"Game not found", some 404⟩) ∧
    (∀ r, o = .success r → r.ok = false → r.status ≠ 404 →
      Arena.codenamesDeleteGame o
        = .error ⟨"Failed to delete game", some r.status⟩) ∧
    (∀ m, o = .networkError m →
      Arena.codenamesDeleteGame o = .error ⟨"Network error: " ++ m, none⟩) := by
  refine ⟨?_, ?_, ?_, ?_⟩
  · constructor
    · intro h
      cases o with
      | networkError m => simp [Arena.codenamesDeleteGame] at h
      | success r =>
        refine ⟨r, rfl, ?_⟩
        by_contra hok
        have hok2 : r.ok = false := by
          cases hr : r.ok
          · rfl
          · exact absurd hr hok
        by_cases h404 : r.status = 404 <;>
          simp [Arena.codenamesDeleteGame, hok2, h404] at h
    · rintro ⟨r, rfl, hok⟩
      simp [Arena.codenamesDeleteGame, hok]
  · rintro r rfl hok h404
    simp [Arena.codenamesDeleteGame, hok, h404]
  · rintro r rfl hok h404
    simp [Arena.codenamesDeleteGame, hok, h404]
  · rintro m rfl
    rfl

/-- Witness for C6: a concrete 404 response with unparseable body rejects
with the "Game not found" typed error. -/
theorem Arena.codenamesDeleteGame_errors_witness :
    Arena.codenamesDeleteGame
      (.success ⟨false, 404, "Not Found", .error "SyntaxError"⟩)
      = .error ⟨"Game not found", some 404⟩ :=
  (Arena.codenamesDeleteGame_errors
    (.success ⟨false, 404, "Not Found", .error "SyntaxError"⟩)).2.1
    ⟨false, 404, "Not Found", .error "SyntaxError"⟩ rfl rfl rfl

/-- C8: `codenamesApi.healthCheck` is total over all fetch outcomes — the
embedding returns `Bool`, never an error — and yields `true` exactly when
the gateway `/health` response is ok, `false` on a non-ok response and
`false` when the fetch itself throws. -/
theorem Arena.codenamesHealthCheck_total (o : Arena.FetchOutcome) :
    (Arena.codenamesHealthCheck o = true ↔
      ∃ r, o = .success r ∧ r.ok = true) ∧
    (∀ r, o = .success r → Arena.codenamesHealthCheck o = r.ok) ∧
    (∀ m, o = .networkError m → Arena.codenamesHealthCheck o = false) := by
  refine ⟨?_, ?_, ?_⟩
  · constructor
    · intro h
      cases o with
      | networkError m => simp [Arena.codenamesHealthCheck] at h
      | success r => exact ⟨r, rfl, h⟩
    · rintro ⟨r, rfl, hok⟩
      exact hok
  · rintro r rfl
    rfl
  · rintro m rfl
    rfl

/-- Witness for C8: a thrown fetch resolves to `false`. -/
theorem Arena.codenamesHealthCheck_total_witness :
    Arena.codenamesHealthCheck (.networkError "ECONNREFUSED") = false :=
  (Arena.codenamesHealthCheck_total (.networkError "ECONNREFUSED")).2.2
    "ECONNREFUSED" rfl

namespace Arena

/-! ### Codenames observer hook (`useCodenames.ts`, C2/C9/C10)

The `ws.onmessage` handler parses the frame inside a `try`; a frame whose
payload is not valid JSON is modelled as `none` and reaches only the
`catch` (a console log).  A parsed `{event_type, data}` message carries a
JSON object in `data`; the handler reads its fields with JavaScript
member access, so every field is optional.  The log entry's `id` and
`timestamp` are wall-clock/random values outside the model. -/

/-- One card of the board (`BoardCard` in `lib/types/codenames.ts`). -/
structure BoardCard where
  word : String
  revealed : Bool
  card_type : Option String
deriving DecidableEq, Repr

/-- Board grid, `BoardCard[][]`. -/
abbrev Board := List (List BoardCard)

/-- Clue stored by `setLastClue`: the raw, possibly absent message fields. -/
structure StoredClue where
  word : Option String
  number : Option Int
deriving DecidableEq, Repr

/-- JSON object in the `data` field of a codenames WebSocket message:
every field the handler reads, each possibly absent. -/
structure CnData where
  game_id : Option String := none
  starting_team : Option String := none
  turn_number : Option Int := none
  team : Option String := none
  current_team : Option String := none
  clue : Option String := none
  number : Option Int := none
  word : Option String := none
  card_type : Option String := none
  red_remaining : Option Int := none
  blue_remaining : Option Int := none
  winner : Option String := none
  assassin_revealed : Option Bool := none
  board : Option Board := none
  phase : Option String := none
deriving DecidableEq, Repr

/-- A parsed `{event_type, data}` WebSocket message. -/
structure CnMsg where
  event_type : String
  data : CnData
deriving DecidableEq, Repr

/-- JavaScript string interpolation of a possibly absent string. -/
def jsShowStr : Option String → String
  | some s => s
  | none => "undefined"

/-- JavaScript string interpolation of a possibly absent number. -/
def jsShowInt : Option Int → String
  | some n => toString n
  | none => "undefined"

/-- JavaScript truthiness of a possibly absent boolean. -/
def jsTruthyBool : Option Bool → Bool
  | some b => b
  | none => false

/-- The `description` built by `formatEvent` for each event type. -/
def cnDescription (m : CnMsg) : String :=
  if m.event_type = "game_started" then
    "Game started! " ++ jsShowStr m.data.starting_team ++ " team goes first."
  else if m.event_type = "turn_started" then
    "Turn " ++ jsShowInt m.data.turn_number ++ ": "
      ++ jsShowStr m.data.team ++ " team\x27s turn"
  else if m.event_type = "clue_given" then
    jsShowStr m.data.team ++ " Spymaster: \"" ++ jsShowStr m.data.clue
      ++ "\" for " ++ jsShowInt m.data.number
  else if m.event_type = "guess_made" then
    jsShowStr m.data.team ++ " Operative guessed \"" ++ jsShowStr m.data.word
      ++ "\" (" ++ jsShowStr m.data.card_type ++ ")"
  else if m.event_type = "turn_ended" then
    jsShowStr m.data.team ++ " team ended their turn"
  else if m.event_type = "game_ended" then
    if jsTruthyBool m.data.assassin_revealed then
      "Game Over! " ++ jsShowStr m.data.winner ++ " team wins (Assassin revealed)"
    else
      "Game Over! " ++ jsShowStr m.data.winner ++ " team wins!"
  else
    m.event_type

/-- Entry appended to the events log (its wall-clock `id`/`timestamp`
fields are outside the model). -/
structure CnLogEvent where
  event_type : String
  data : CnData
  description : String
deriving DecidableEq, Repr

/-- The entry `formatEvent(message)` produces. -/
def cnFormatEvent (m : CnMsg) : CnLogEvent :=
  ⟨m.event_type, m.data, cnDescription m⟩

/-- Per-card update of the `guess_made` handler: a card whose `word`
strictly equals the message's `word` is revealed with the message's
`card_type`; any other card is returned unchanged. -/
def applyGuessCard (d : CnData) (card : BoardCard) : BoardCard :=
  if some card.word = d.word then
    { card with revealed := true, card_type := d.card_type }
  else card

/-- Board update of the `guess_made` handler:
`prevBoard.map(row => row.map(card => ...))`. -/
def applyGuessBoard (d : CnData) (b : Board) : Board :=
  b.map (fun row => row.map (applyGuessCard d))

/-- Game-state update of the `guess_made` handler:
`{...prevState, red_remaining, blue_remaining}`. -/
def applyGuessState (d : CnData) (gs : CnData) : CnData :=
  { gs with
    red_remaining := d.red_remaining,
    blue_remaining := d.blue_remaining }

/-- Observable state of the `useCodenames` hook touched by `ws.onmessage`;
`socketOpen` records that the handler never closes the socket. -/
structure CnState where
  gameState : Option CnData
  board : Option Board
  lastClue : Option StoredClue
  events : List CnLogEvent
  error : Option String
  isConnected : Bool
  socketOpen : Bool
deriving DecidableEq, Repr

/-- The body of `ws.onmessage` on a successfully parsed message: the
sequence of independent `if` blocks of the source, followed by the
unconditional append of the formatted event to the log. -/
def cnHandleMessage (st : CnState) (m : CnMsg) : CnState :=
  let st1 := if m.event_type = "game_state" then
      { st with gameState := some m.data, board := m.data.board }
    else st
  let st2 := if m.event_type = "guess_made" then
      { st1 with
        board := st1.board.map (applyGuessBoard m.data),
        gameState := st1.gameState.map (applyGuessState m.data) }
    else st1
  let st3 := if m.event_type = "clue_given" then
      { st2 with lastClue := some ⟨m.data.clue, m.data.number⟩ }
    else st2
  let st4 := if m.event_type = "game_started" ∧ m.data.board.isSome then
      { st3 with board := m.data.board }
    else st3
  let st5 := if m.event_type = "turn_started" then
      { st4 with gameState := st4.gameState.map (fun gs =>
          { gs with
            current_team := m.data.team,
            turn_number := m.data.turn_number,
            red_remaining := m.data.red_remaining,
            blue_remaining := m.data.blue_remaining }) }
    else st4
  let st6 := if m.event_type = "game_ended" then
      { st5 with gameState := st5.gameState.map (fun gs =>
          { gs with
            phase := some "finished",
            winner := m.data.winner,
            assassin_revealed := m.data.assassin_revealed,
            red_remaining := m.data.red_remaining,
            blue_remaining := m.data.blue_remaining }) }
    else st5
  { st6 with events := st6.events ++ [cnFormatEvent m] }

/-- One received frame: the `JSON.parse` result, `none` when the payload
is not valid JSON (the handler then only logs inside its `catch`). -/
def cnOnMessage (st : CnState) (frame : Option CnMsg) : CnState :=
  match frame with
  | some m => cnHandleMessage st m
  | none => st

/-- Processing of a sequence of frames in arrival order. -/
def cnRun (st : CnState) (frames : List (Option CnMsg)) : CnState :=
  frames.foldl cnOnMessage st

theorem cnHandleMessage_events (st : CnState) (m : CnMsg) :
    (cnHandleMessage st m).events = st.events ++ [cnFormatEvent m] := by
  simp only [cnHandleMessage]
  split <;> split <;> split <;> split <;> split <;> split <;> rfl

end Arena

namespace Arena

/-! ### Mr. White observer hook (`useMrWhite`, src/unnamed/part_008, C2/C9)

`MrWhiteApiService.createWebSocket` wraps `JSON.parse` and the
`onMessage` callback in one `try`; an unparseable frame (modelled `none`)
never reaches the hook.  The hook's callback first appends the event to
its log, then dispatches on `event_type`; `fetchGameStatus` calls it
issues are recorded in `pendingFetches` (their async completions are
separate server interactions, not frame effects). -/

/-- Vote tally object, kept as an association list. -/
abbrev VoteCounts := List (String × Int)

/-- Fields of the `data` object of a mr-white event the hook reads. -/
structure MwData where
  phase : Option String := none
  player : Option String := none
  type : Option String := none
  content : Option String := none
  round : Option Int := none
  message : Option String := none
  winner_side : Option String := none
  secret_word : Option String := none
  mister_white_player : Option String := none
  eliminated_player : Option String := none
  vote_counts : Option VoteCounts := none
deriving DecidableEq, Repr

/-- A parsed mr-white `GameEvent` frame `{event_type, data, timestamp}`. -/
structure MwEvent where
  event_type : String
  data : MwData
  timestamp : Option String := none
deriving DecidableEq, Repr

/-- One entry of `game.messages` as the `message` handler builds it. -/
structure MwMessage where
  player : Option String
  type : Option String
  content : Option String
  round : Option Int
  phase : Option String
  timestamp : Option String
deriving DecidableEq, Repr

/-- The fields of the stored `GameResponse` the handler touches, plus
`players` as a representative untouched field. -/
structure MwGame where
  game_id : String
  status : String
  phase : Option String
  players : Option (List String)
  messages : Option (List MwMessage)
  winner_side : Option String
  secret_word : Option String
  mister_white_player : Option String
  eliminated_player : Option String
  vote_counts : Option VoteCounts
deriving DecidableEq, Repr

/-- Observable state of the `useMrWhite` hook touched by the `onMessage`
callback; `pendingFetches` records issued `fetchGameStatus` calls and
`socketOpen` that the callback never closes the socket. -/
structure MwState where
  game : Option MwGame
  events : List MwEvent
  isConnected : Bool
  error : Option String
  socketOpen : Bool
  pendingFetches : List String
deriving DecidableEq, Repr

/-- The `onMessage` callback of `connectWebSocket` on a parsed event:
append to the log first, then the `switch` on `event_type`. -/
def mwHandleEvent (gameId : String) (st : MwState) (ev : MwEvent) : MwState :=
  let stl := { st with events := st.events ++ [ev] }
  if ev.event_type = "connected" then
    { stl with pendingFetches := stl.pendingFetches ++ [gameId] }
  else if ev.event_type = "phase_change" then
    let stp := { stl with
      game := stl.game.map (fun g => { g with phase := ev.data.phase }) }
    if ev.data.phase = some "clue" ∨ ev.data.phase = some "discussion" then
      { stp with pendingFetches := stp.pendingFetches ++ [gameId] }
    else stp
  else if ev.event_type = "message" then
    { stl with game := stl.game.map (fun g =>
        { g with messages := some ((g.messages.getD []) ++
            [⟨ev.data.player, ev.data.type, ev.data.content,
              ev.data.round, ev.data.phase, ev.timestamp⟩]) }) }
  else if ev.event_type = "game_complete" then
    let stc := { stl with game := stl.game.map (fun (g : MwGame) =>
        { g with
          status := "completed",
          winner_side := ev.data.winner_side,
          secret_word := ev.data.secret_word,
          mister_white_player := ev.data.mister_white_player,
          eliminated_player := ev.data.eliminated_player,
          vote_counts := ev.data.vote_counts }) }
    { stc with pendingFetches := stc.pendingFetches ++ [gameId] }
  else if ev.event_type = "error" then
    { stl with error := ev.data.message }
  else
    stl

/-- One received frame through `createWebSocket`: `none` models a payload
`JSON.parse` rejects, on which the callback is never invoked. -/
def mwOnMessage (gameId : String) (st : MwState) (frame : Option MwEvent) :
    MwState :=
  match frame with
  | some ev => mwHandleEvent gameId st ev
  | none => st

/-- Processing of a sequence of frames in arrival order. -/
def mwRun (gameId : String) (st : MwState) (frames : List (Option MwEvent)) :
    MwState :=
  frames.foldl (mwOnMessage gameId) st

theorem mwHandleEvent_events (gameId : String) (st : MwState) (ev : MwEvent) :
    (mwHandleEvent gameId st ev).events = st.events ++ [ev] := by
  simp only [mwHandleEvent]
  split <;> (try split) <;> (try split) <;> (try split) <;> (try split) <;> rfl

end Arena

/-- C2: while a connection is attached, each frame that parses as an
`{event_type, data}` message appends exactly one entry to the observer
hook's events log (`useCodenames` and `useMrWhite`), and the log order
equals frame arrival order — no reordering, no duplication; unparseable
frames append nothing. -/
theorem Arena.observer_log_append_in_order :
    (∀ (st : Arena.CnState) (frames : List (Option Arena.CnMsg)),
      (Arena.cnRun st frames).events
        = st.events ++ (frames.filterMap id).map Arena.cnFormatEvent) ∧
    (∀ (gameId : String) (st : Arena.MwState)
        (frames : List (Option Arena.MwEvent)),
      (Arena.mwRun gameId st frames).events
        = st.events ++ frames.filterMap id) := by
  constructor
  · intro st frames
    induction frames generalizing st with
    | nil => simp [Arena.cnRun]
    | cons f tl ih =>
      cases f with
      | none =>
        simpa [Arena.cnRun, Arena.cnOnMessage] using ih st
      | some m =>
        have step : Arena.cnRun st (some m :: tl)
            = Arena.cnRun (Arena.cnHandleMessage st m) tl := rfl
        rw [step, ih, Arena.cnHandleMessage_events]
        simp
  · intro gameId st frames
    induction frames generalizing st with
    | nil => simp [Arena.mwRun]
    | cons f tl ih =>
      cases f with
      | none =>
        simpa [Arena.mwRun, Arena.mwOnMessage] using ih st
      | some ev =>
        have step : Arena.mwRun gameId st (some ev :: tl)
            = Arena.mwRun gameId (Arena.mwHandleEvent gameId st ev) tl := rfl
        rw [step, ih, Arena.mwHandleEvent_events]
        simp

/-- C9: a frame whose payload is not valid JSON leaves every observable
field of both hooks unchanged — no log entry, no game-state mutation, no
error, and the socket stays open. -/
theorem Arena.unparseable_frame_noop (st : Arena.CnState) (gameId : String)
    (mst : Arena.MwState) :
    Arena.cnOnMessage st none = st ∧
    (Arena.cnOnMessage st none).events = st.events ∧
    (Arena.cnOnMessage st none).gameState = st.gameState ∧
    (Arena.cnOnMessage st none).board = st.board ∧
    (Arena.cnOnMessage st none).error = st.error ∧
    (Arena.cnOnMessage st none).socketOpen = st.socketOpen ∧
    Arena.mwOnMessage gameId mst none = mst ∧
    (Arena.mwOnMessage gameId mst none).events = mst.events ∧
    (Arena.mwOnMessage gameId mst none).game = mst.game ∧
    (Arena.mwOnMessage gameId mst none).error = mst.error ∧
    (Arena.mwOnMessage gameId mst none).socketOpen = mst.socketOpen :=
  ⟨rfl, rfl, rfl, rfl, rfl, rfl, rfl, rfl, rfl, rfl, rfl⟩

/-- C10: for every board and `guess_made` message, the board update marks
exactly the cards whose `word` equals the message's `word` as revealed
with the message's `card_type`, leaves every other card and the row and
column shape unchanged, and the game-state update changes only the
`red_remaining` and `blue_remaining` fields. -/
theorem Arena.guess_made_marks_exactly (d : Arena.CnData) (b : Arena.Board) :
    (Arena.applyGuessBoard d b).length = b.length ∧
    (∀ (i : Nat) (row : List Arena.BoardCard), b[i]? = some row →
      (Arena.applyGuessBoard d b)[i]?
        = some (row.map (Arena.applyGuessCard d)) ∧
      (row.map (Arena.applyGuessCard d)).length = row.length) ∧
    (∀ (j : Nat) (row : List Arena.BoardCard) (card : Arena.BoardCard),
      row[j]? = some card →
      (row.map (Arena.applyGuessCard d))[j]?
        = some (if some card.word = d.word then
            { card with revealed := true, card_type := d.card_type }
          else card)) ∧
    (∀ gs : Arena.CnData,
      (Arena.applyGuessState d gs).red_remaining = d.red_remaining ∧
      (Arena.applyGuessState d gs).blue_remaining = d.blue_remaining ∧
      (Arena.applyGuessState d gs).game_id = gs.game_id ∧
      (Arena.applyGuessState d gs).starting_team = gs.starting_team ∧
      (Arena.applyGuessState d gs).turn_number = gs.turn_number ∧
      (Arena.applyGuessState d gs).team = gs.team ∧
      (Arena.applyGuessState d gs).current_team = gs.current_team ∧
      (Arena.applyGuessState d gs).clue = gs.clue ∧
      (Arena.applyGuessState d gs).number = gs.number ∧
      (Arena.applyGuessState d gs).word = gs.word ∧
      (Arena.applyGuessState d gs).card_type = gs.card_type ∧
      (Arena.applyGuessState d gs).winner = gs.winner ∧
      (Arena.applyGuessState d gs).assassin_revealed = gs.assassin_revealed ∧
      (Arena.applyGuessState d gs).board = gs.board ∧
      (Arena.applyGuessState d gs).phase = gs.phase) ∧
    (∀ (st : Arena.CnState) (m : Arena.CnMsg),
      m.event_type = "guess_made" →
      (Arena.cnHandleMessage st m).board
        = st.board.map (Arena.applyGuessBoard m.data) ∧
      (Arena.cnHandleMessage st m).gameState
        = st.gameState.map (Arena.applyGuessState m.data)) := by
  refine ⟨by simp [Arena.applyGuessBoard], ?_, ?_, ?_, ?_⟩
  · intro i row h
    refine ⟨?_, by simp⟩
    simp [Arena.applyGuessBoard, List.getElem?_map, h]
  · intro j row card h
    simp [List.getElem?_map, h, Arena.applyGuessCard]
  · intro gs
    exact ⟨rfl, rfl, rfl, rfl, rfl, rfl, rfl, rfl,
      rfl, rfl, rfl, rfl, rfl, rfl, rfl⟩
  · intro st m hm
    constructor <;> simp [Arena.cnHandleMessage, hm]

namespace Arena

/-- Concrete card matching the sample guess. -/
def sampleCardA : BoardCard := ⟨"apple", false, none⟩

/-- Concrete card not matching the sample guess. -/
def sampleCardB : BoardCard := ⟨"pear", false, none⟩

/-- Concrete `guess_made` message data. -/
def sampleGuessData : CnData :=
  { word := some "apple", card_type := some "RED",
    red_remaining := some 7, blue_remaining := some 6 }

end Arena

/-- Witness for C10: on a concrete row, the updated card at position 0 is
the revealed `apple` card. -/
theorem Arena.guess_made_marks_exactly_witness :
    ([Arena.sampleCardA, Arena.sampleCardB].map
        (Arena.applyGuessCard Arena.sampleGuessData))[0]?
      = some (if some Arena.sampleCardA.word = Arena.sampleGuessData.word then
          { Arena.sampleCardA with
            revealed := true, card_type := Arena.sampleGuessData.card_type }
        else Arena.sampleCardA) :=
  (Arena.guess_made_marks_exactly Arena.sampleGuessData
    [[Arena.sampleCardA, Arena.sampleCardB]]).2.2.1 0
    [Arena.sampleCardA, Arena.sampleCardB] Arena.sampleCardA rfl

namespace Arena

/-! ### WebSocket lifecycle of the observer hooks (C7)

All three hooks follow one pattern over `wsRef`: `connectWebSocket`
closes the previously referenced socket (when there is one) before
creating the new one and storing it in the ref (`useMrWhite` part_008
lines 63-70, `useTicTacToe` lines 609-615); `deleteGame` / `disconnect`
close the referenced socket and null the ref (`useCodenames.deleteGame`,
`useTicTacToe.deleteGame`); the unmount cleanup closes it and leaves the
ref.  Each socket is created for exactly one game id and its
subscription never changes. -/

/-- A WebSocket created by a hook: the single game id it was opened for,
and whether it is still open. -/
structure Conn where
  gameId : String
  isOpen : Bool
deriving DecidableEq, Repr

/-- Bookkeeping of the sockets one hook ever created, in creation order,
with `wsRef.current` as an index into that history. -/
structure HookSockets where
  socks : List Conn
  ref : Option Nat
deriving DecidableEq, Repr

/-- Effect of `ws.close()` on the socket at index `i`. -/
def closeIdx : List Conn → Nat → List Conn
  | [], _ => []
  | c :: tl, 0 => { c with isOpen := false } :: tl
  | c :: tl, i + 1 => c :: closeIdx tl i

/-- Closing of the currently referenced socket, when there is one. -/
def closeRef (st : HookSockets) : List Conn :=
  match st.ref with
  | some i => closeIdx st.socks i
  | none => st.socks

/-- The socket operations a hook performs. -/
inductive SockOp where
  | connect (gameId : String)
  | disconnect
  | unmount
deriving DecidableEq, Repr

/-- One hook operation: `connect` closes the referenced socket, then
opens a socket for the requested game and stores it in the ref;
`disconnect` (also `deleteGame`) closes and nulls the ref; `unmount`
closes and leaves the ref. -/
def sockStep (st : HookSockets) : SockOp → HookSockets
  | .connect g =>
    let l := closeRef st
    { socks := l ++ [⟨g, true⟩], ref := some l.length }
  | .disconnect => { socks := closeRef st, ref := none }
  | .unmount => { socks := closeRef st, ref := st.ref }

/-- Hook state after a sequence of operations from the initial
`wsRef.current = null` state with no socket created. -/
def sockRun (ops : List SockOp) : HookSockets :=
  ops.foldl sockStep { socks := [], ref := none }

/-- Number of sockets still open. -/
def openCount (l : List Conn) : Nat :=
  (l.filter (fun c => c.isOpen)).length

theorem openCount_cons (c : Conn) (tl : List Conn) :
    openCount (c :: tl) = (if c.isOpen then 1 else 0) + openCount tl := by
  cases hc : c.isOpen <;>
    simp [openCount, List.filter_cons, hc, Nat.add_comm]

theorem openCount_append (a b : List Conn) :
    openCount (a ++ b) = openCount a + openCount b := by
  simp [openCount, List.filter_append]

theorem closeIdx_gameIds : ∀ (l : List Conn) (i : Nat),
    (closeIdx l i).map Conn.gameId = l.map Conn.gameId
  | [], _ => rfl
  | _ :: tl, 0 => rfl
  | c :: tl, i + 1 => by
    simp [closeIdx, closeIdx_gameIds tl i]

theorem openCount_closeIdx_le : ∀ (l : List Conn) (i : Nat),
    openCount (closeIdx l i) ≤ openCount l
  | [], _ => Nat.le_refl _
  | c :: tl, 0 => by
    simp [closeIdx, openCount_cons]
  | c :: tl, i + 1 => by
    simp only [closeIdx, openCount_cons]
    have := openCount_closeIdx_le tl i
    omega

theorem openCount_le_closeIdx_succ : ∀ (l : List Conn) (i : Nat),
    openCount l ≤ openCount (closeIdx l i) + 1
  | [], _ => Nat.le_succ _
  | c :: tl, 0 => by
    simp only [closeIdx, openCount_cons]
    split <;> omega
  | c :: tl, i + 1 => by
    simp only [closeIdx, openCount_cons]
    have := openCount_le_closeIdx_succ tl i
    omega

theorem closeIdx_append_len : ∀ (l : List Conn) (c : Conn),
    closeIdx (l ++ [c]) l.length = l ++ [{ c with isOpen := false }]
  | [], c => rfl
  | c0 :: tl, c => by
    simp [closeIdx, closeIdx_append_len tl c]

theorem closeRef_mk_some (l : List Conn) (i : Nat) :
    closeRef ⟨l, some i⟩ = closeIdx l i := rfl

theorem closeRef_mk_none (l : List Conn) :
    closeRef ⟨l, none⟩ = l := rfl

/-- Invariant of the socket bookkeeping: after closing the referenced
socket nothing remains open, i.e. every open socket is the referenced
one. -/
def sockInv (st : HookSockets) : Prop := openCount (closeRef st) = 0

theorem sockInv_step (st : HookSockets) (op : SockOp) (h : sockInv st) :
    sockInv (sockStep st op) := by
  have hz : openCount (closeRef st) = 0 := h
  cases op with
  | connect g =>
    show openCount (closeRef
      ⟨closeRef st ++ [⟨g, true⟩], some (closeRef st).length⟩) = 0
    rw [closeRef_mk_some, closeIdx_append_len, openCount_append]
    simpa [openCount] using hz
  | disconnect =>
    show openCount (closeRef ⟨closeRef st, none⟩) = 0
    rw [closeRef_mk_none]
    exact hz
  | unmount =>
    show openCount (closeRef ⟨closeRef st, st.ref⟩) = 0
    cases href : st.ref with
    | none =>
      rw [closeRef_mk_none]
      exact hz
    | some i =>
      rw [closeRef_mk_some]
      have hle := openCount_closeIdx_le (closeRef st) i
      omega

theorem sockInv_run : ∀ (ops : List SockOp) (st : HookSockets),
    sockInv st → sockInv (ops.foldl sockStep st)
  | [], _, h => h
  | op :: tl, st, h => sockInv_run tl _ (sockInv_step st op h)

end Arena

/-- C7: each observer hook keeps at most one live WebSocket at any time —
after any operation sequence at most one created socket is open, closing
the referenced socket leaves none open (so `connectWebSocket` closes the
previous socket before it opens the next one, and `deleteGame`,
`disconnect` and the unmount cleanup leave no open socket) — and every
socket is subscribed to exactly the single game id it was opened for,
which no operation ever rewrites. -/
theorem Arena.observer_socket_lifecycle (ops : List Arena.SockOp)
    (g : String) (l : List Arena.Conn) (i : Nat) :
    Arena.openCount (Arena.sockRun ops).socks ≤ 1 ∧
    Arena.openCount (Arena.closeRef (Arena.sockRun ops)) = 0 ∧
    Arena.openCount (Arena.sockStep (Arena.sockRun ops) .disconnect).socks = 0 ∧
    Arena.openCount (Arena.sockStep (Arena.sockRun ops) .unmount).socks = 0 ∧
    Arena.openCount (Arena.sockStep (Arena.sockRun ops) (.connect g)).socks ≤ 1 ∧
    (Arena.sockStep (Arena.sockRun ops) (.connect g)).socks.map Arena.Conn.gameId
      = (Arena.sockRun ops).socks.map Arena.Conn.gameId ++ [g] ∧
    (Arena.closeIdx l i).map Arena.Conn.gameId = l.map Arena.Conn.gameId := by
  have hinv : Arena.sockInv (Arena.sockRun ops) :=
    Arena.sockInv_run ops { socks := [], ref := none } rfl
  have hz : Arena.openCount (Arena.closeRef (Arena.sockRun ops)) = 0 := hinv
  refine ⟨?_, hz, ?_, ?_, ?_, ?_, Arena.closeIdx_gameIds l i⟩
  · cases href : (Arena.sockRun ops).ref with
    | none =>
      have he : Arena.closeRef (Arena.sockRun ops) = (Arena.sockRun ops).socks := by
        simp [Arena.closeRef, href]
      rw [← he]
      omega
    | some j =>
      have he : Arena.closeRef (Arena.sockRun ops)
          = Arena.closeIdx (Arena.sockRun ops).socks j := by
        simp [Arena.closeRef, href]
      have hle := Arena.openCount_le_closeIdx_succ (Arena.sockRun ops).socks j
      have hz2 := hz
      rw [he] at hz2
      omega
  · show Arena.openCount (Arena.closeRef (Arena.sockRun ops)) = 0
    exact hz
  · show Arena.openCount (Arena.closeRef (Arena.sockRun ops)) = 0
    exact hz
  · show Arena.openCount
        (Arena.closeRef (Arena.sockRun ops) ++ [(⟨g, true⟩ : Arena.Conn)]) ≤ 1
    rw [Arena.openCount_append]
    have h1 : Arena.openCount [(⟨g, true⟩ : Arena.Conn)] = 1 := rfl
    omega
  · show (Arena.closeRef (Arena.sockRun ops)
        ++ [(⟨g, true⟩ : Arena.Conn)]).map Arena.Conn.gameId
      = (Arena.sockRun ops).socks.map Arena.Conn.gameId ++ [g]
    rw [List.map_append]
    cases href : (Arena.sockRun ops).ref with
    | none => simp [Arena.closeRef, href]
    | some j => simp [Arena.closeRef, href, Arena.closeIdx_gameIds]

namespace Arena

/-! ### Game lifecycle status machine (C4) -/

/-- Status of a game: PENDING, RUNNING, COMPLETED or FAILED. -/
inductive GameLifecycleStatus where
  | pending
  | running
  | completed
  | failed
deriving DecidableEq, Repr

/-- Events driving the status of one game runtime. -/
inductive RuntimeEvent where
  | startDriver
  | terminalReport (success : Bool)
  | driverException
deriving DecidableEq, Repr

/-- Modelled from the spec: the Game Manager / Game Runtime that owns the
status machine is backend code not present under src/ (the frontend only
observes it).  Per the spec, `create` allocates a Game with status
PENDING and immediately transitions it to RUNNING; the driver reports
exactly one terminal outcome (COMPLETED or FAILED), the manager
transitions atomically on the first terminal report and ignores any
further report; an uncaught driver exception is treated as FAILED; no
transition leaves a terminal state. -/
def lifecycleStep (s : GameLifecycleStatus) (e : RuntimeEvent) :
    GameLifecycleStatus :=
  match s with
  | .completed => s
  | .failed => s
  | .pending =>
    match e with
    | .startDriver => .running
    | .terminalReport ok => if ok then .completed else .failed
    | .driverException => .failed
  | .running =>
    match e with
    | .startDriver => .running
    | .terminalReport ok => if ok then .completed else .failed
    | .driverException => .failed

/-- Position of a status along PENDING → RUNNING → terminal. -/
def statusRank : GameLifecycleStatus → Nat
  | .pending => 0
  | .running => 1
  | .completed => 2
  | .failed => 2

/-- Terminal statuses. -/
def isTerminalStatus (s : GameLifecycleStatus) : Prop :=
  s = .completed ∨ s = .failed

end Arena

/-- C4: status transitions are monotonic along
PENDING → RUNNING → {COMPLETED, FAILED}: every event moves the status
forward in rank, a terminal status absorbs every event, and once a game
is COMPLETED or FAILED no later event sequence changes its status. -/
theorem Arena.lifecycle_monotone_terminal :
    (∀ (s : Arena.GameLifecycleStatus) (e : Arena.RuntimeEvent),
      Arena.statusRank s ≤ Arena.statusRank (Arena.lifecycleStep s e)) ∧
    (∀ (s : Arena.GameLifecycleStatus) (e : Arena.RuntimeEvent),
      Arena.isTerminalStatus s → Arena.lifecycleStep s e = s) ∧
    (∀ (s : Arena.GameLifecycleStatus), Arena.isTerminalStatus s →
      ∀ es : List Arena.RuntimeEvent,
        es.foldl Arena.lifecycleStep s = s) ∧
    (∀ (s : Arena.GameLifecycleStatus) (e : Arena.RuntimeEvent),
      Arena.isTerminalStatus (Arena.lifecycleStep s e) ∨
        Arena.lifecycleStep s e = .running) := by
  have hterm : ∀ (s : Arena.GameLifecycleStatus) (e : Arena.RuntimeEvent),
      Arena.isTerminalStatus s → Arena.lifecycleStep s e = s := by
    rintro s e (rfl | rfl) <;> rfl
  refine ⟨?_, hterm, ?_, ?_⟩
  · intro s e
    cases e with
    | startDriver => cases s <;> decide
    | terminalReport ok => cases s <;> cases ok <;> decide
    | driverException => cases s <;> decide
  · intro s hs es
    induction es with
    | nil => rfl
    | cons e tl ih =>
      simp only [List.foldl_cons, hterm s e hs]
      exact ih
  · intro s e
    cases e with
    | startDriver =>
      cases s <;> simp [Arena.isTerminalStatus, Arena.lifecycleStep]
    | terminalReport ok =>
      cases s <;> cases ok <;>
        simp [Arena.isTerminalStatus, Arena.lifecycleStep]
    | driverException =>
      cases s <;> simp [Arena.isTerminalStatus, Arena.lifecycleStep]

/-- Witness for C4: a COMPLETED game keeps its status across a concrete
later event sequence. -/
theorem Arena.lifecycle_monotone_terminal_witness :
    [Arena.RuntimeEvent.startDriver, Arena.RuntimeEvent.terminalReport false,
      Arena.RuntimeEvent.driverException].foldl Arena.lifecycleStep
      Arena.GameLifecycleStatus.completed
      = Arena.GameLifecycleStatus.completed :=
  Arena.lifecycle_monotone_terminal.2.2.1
    Arena.GameLifecycleStatus.completed (Or.inl rfl)
    [Arena.RuntimeEvent.startDriver, Arena.RuntimeEvent.terminalReport false,
      Arena.RuntimeEvent.driverException]
